import Mathlib

/-!
# Starlink-Tracker: the position engine of `src/App.jsx`

A shallow embedding of the computational parts of `src/App.jsx`:

* the TLE parsing loop of `App` (lines 186-197),
* the per-component simulation clocks of `Earth`, `Sun`, `Moon`, `Satellites`,
* the low-precision ephemerides `getJulianDate`, `getSunPosition`, `getMoonPosition`,
* the render-space transforms of `Sun`, `Moon` and `Satellites`,
* one frame of `Satellites` as a step over the instance slots.

JavaScript numbers are idealised: arithmetic-only code is written over an arbitrary
field `K` (so it runs over `ℚ`), code that calls `Math.sin`, `Math.cos`, `Math.asin`
or uses `Math.PI` is written over `ℝ`.
-/

namespace Starlink

/-! ## Strings: `String.prototype.trim` and `split('\n')` -/

/-- ECMAScript `WhiteSpace` and `LineTerminator` code points, the characters that
`String.prototype.trim` strips: TAB, LF, VT, FF, CR, SP, NBSP, U+1680, U+2000..U+200A,
U+2028, U+2029, U+202F, U+205F, U+3000 and U+FEFF. -/
def isWhiteSpace (c : Char) : Bool :=
  [9, 10, 11, 12, 13, 32, 160, 5760, 8232, 8233, 8239, 8287, 12288, 65279].contains c.toNat
    || (8192 ≤ c.toNat && c.toNat ≤ 8202)

/-- JavaScript `s.trim()`: white space removed from both ends. -/
def trim (s : String) : String :=
  String.mk ((s.data.dropWhile isWhiteSpace).reverse.dropWhile isWhiteSpace).reverse

/-- Worker of `split`: `cur` is the current piece, reversed. -/
def splitAux : List Char → List Char → List String
  | [], cur => [String.mk cur.reverse]
  | c :: cs, cur =>
    if c = Char.ofNat 10 then String.mk cur.reverse :: splitAux cs []
    else splitAux cs (c :: cur)

/-- JavaScript `s.split('\n')`: the pieces between line feeds; never the empty array. -/
def split (s : String) : List String :=
  splitAux s.data []

/-! ## The element-set parser (`App`, lines 186-197) -/

/-- The object literal pushed by the parsing loop. -/
structure ElementSet where
  name : String
  line1 : String
  line2 : String
  deriving DecidableEq, Repr

/-- JavaScript truthiness of `lines[k]`: `undefined` (index out of range) and the empty
string are falsy, every other string is truthy. -/
def truthy : Option String → Bool
  | none => false
  | some s => s != ""

/-- The body of `for (let i = 0; i < lines.length; i += 3)` from index `i` on, with the
array `satellites` built so far. The record is pushed when `lines[i + 2]` is truthy,
which forces `lines[i]` and `lines[i + 1]` to exist. -/
def parseLoop (lines : List String) (i : Nat) (satellites : List ElementSet) :
    List ElementSet :=
  if i < lines.length then
    if truthy lines[i + 2]? then
      match lines[i]?, lines[i + 1]?, lines[i + 2]? with
      | some l0, some l1, some l2 =>
        parseLoop lines (i + 3)
          (satellites ++ [{ name := trim l0, line1 := trim l1, line2 := trim l2 }])
      | _, _, _ => parseLoop lines (i + 3) satellites
    else parseLoop lines (i + 3) satellites
  else satellites
termination_by lines.length - i
decreasing_by all_goals simp_wf; all_goals omega

/-- The lines the loop runs over: `data.trim().split('\n')`. -/
def tleLines (data : String) : List String :=
  split (trim data)

/-- The `.then((data) => ...)` callback of `App`: the array handed to `setTleData`. -/
def parseTle (data : String) : List ElementSet :=
  parseLoop (tleLines data) 0 []

/-- The record of the `k`-th three-line group of `lines` (a line that does not exist
reads as the empty string). Used to state what the loop emits. -/
def groupAt (lines : List String) (k : Nat) : ElementSet :=
  { name := trim (lines.getD (3 * k) ""),
    line1 := trim (lines.getD (3 * k + 1) ""),
    line2 := trim (lines.getD (3 * k + 2) "") }

/-! ## The simulation clocks -/

/-- The expression `startTime + (Date.now() - startTime) * timeScale` of `Sun`, `Moon`
and `Satellites` (lines 35, 70, 100); `now` is the value of `Date.now()`. -/
def currentTime {K : Type} [Field K] (startTime now timeScale : K) : K :=
  startTime + (now - startTime) * timeScale

/-- The expression `clock.getElapsedTime() * timeScale` of `Earth` (line 13); `elapsed` is
the value of `clock.getElapsedTime()`, in seconds. -/
def elapsedTime {K : Type} [Field K] (elapsed timeScale : K) : K :=
  elapsed * timeScale

/-- The value assigned to `earthRef.current.rotation.y` (line 14) for the simulated
elapsed seconds `elapsedTime`. -/
noncomputable def rotationAngle (elapsedTime : ℝ) : ℝ :=
  (2 * Real.pi * elapsedTime) / (24 * 60 * 60)

/-- The `useFrame` callback of `Earth`: the rotation about the y axis it sets. -/
noncomputable def earthRotationY (elapsed timeScale : ℝ) : ℝ :=
  rotationAngle (elapsedTime elapsed timeScale)

/-! ## Ephemerides (lines 141-176) -/

/-- The function `getJulianDate`; `date` is the time value of the `Date`, in ms. -/
def getJulianDate {K : Type} [Field K] (date : K) : K :=
  date / 86400000 + 2440587.5

/-- The object `{ longitude, latitude }` returned by the ephemerides, in radians. -/
structure AngularPosition where
  longitude : ℝ
  latitude : ℝ

/-- The function `getSunPosition` (the unused constant `e` is omitted). -/
noncomputable def getSunPosition (jd : ℝ) : AngularPosition :=
  let T := (jd - 2451545.0) / 36525
  let L0 := 280.46646 + 36000.76983 * T
  let M := 357.52911 + 35999.05029 * T
  let C := (1.914602 - 0.004817 * T) * Real.sin (M * Real.pi / 180) +
           (0.019993 - 0.000101 * T) * Real.sin (2 * M * Real.pi / 180)
  let lam := (L0 + C) * Real.pi / 180
  let epsilon := (23.439281 - 0.0130042 * T) * Real.pi / 180
  { longitude := lam,
    latitude := Real.arcsin (Real.sin lam * Real.sin epsilon) }

/-- The function `getMoonPosition`. -/
noncomputable def getMoonPosition (jd : ℝ) : AngularPosition :=
  let T := (jd - 2451545.0) / 36525
  let L := 218.3164591 + 481267.88134236 * T
  let M := 134.9634114 + 477198.8676313 * T
  let F := 93.2720993 + 483202.0175273 * T
  let D := 297.8502042 + 445267.1115168 * T
  let lam := L + (6.28875 * Real.sin (M * Real.pi / 180)) +
             (1.27402 * Real.sin ((2 * D - M) * Real.pi / 180))
  let beta := 5.12819 * Real.sin (F * Real.pi / 180)
  { longitude := lam * Real.pi / 180,
    latitude := beta * Real.pi / 180 }

/-! ## Render-space transforms -/

/-- A position `(x, y, z)` in render space, the argument of `position.set` and of
`Matrix4.setPosition`. -/
structure Vec3 where
  x : ℝ
  y : ℝ
  z : ℝ

/-- What one frame of `Sun` writes: the position of the mesh and of the light. -/
structure SunFrame where
  sun : Vec3
  light : Vec3

/-- Lines 38-46 of `Sun`, from the Julian date `jd` of the frame. -/
noncomputable def sunFrame (jd : ℝ) : SunFrame :=
  let sunPos := getSunPosition jd
  let distance : ℝ := 50
  let x := distance * Real.cos sunPos.latitude * Real.cos sunPos.longitude
  let y := distance * Real.sin sunPos.latitude
  let z := distance * Real.cos sunPos.latitude * Real.sin sunPos.longitude
  { sun := ⟨x, y, z⟩, light := ⟨x, y, z⟩ }

/-- Lines 73-80 of `Moon`, from the Julian date `jd` of the frame. -/
noncomputable def moonFrame (jd : ℝ) : Vec3 :=
  let moonPos := getMoonPosition jd
  let distance : ℝ := 10
  let x := distance * Real.cos moonPos.latitude * Real.cos moonPos.longitude
  let y := distance * Real.sin moonPos.latitude
  let z := distance * Real.cos moonPos.latitude * Real.sin moonPos.longitude
  ⟨x, y, z⟩

/-- The object returned by `satellite.eciToGeodetic`: angles in radians, height in km. -/
structure Geodetic where
  longitude : ℝ
  latitude : ℝ
  height : ℝ

/-- The library function `satellite.radiansToDegrees`. -/
noncomputable def radiansToDegrees (radians : ℝ) : ℝ :=
  radians * (180 / Real.pi)

/-- Lines 116-118 of `Satellites`: `radius = earthRadius + height / scaleFactor`. -/
def satelliteRadius {K : Type} [Field K] (height : K) : K :=
  let earthRadius : K := 5
  let scaleFactor : K := 6371
  earthRadius + height / scaleFactor

/-- Lines 112-125 of `Satellites`: the render position of a satellite from its geodetic
position and the sidereal angle `gmst` of the frame. -/
noncomputable def satellitePosition (positionGd : Geodetic) (gmst : ℝ) : Vec3 :=
  let longitude := radiansToDegrees positionGd.longitude
  let latitude := radiansToDegrees positionGd.latitude
  let height := positionGd.height
  let radius := satelliteRadius height
  let phi := (90 - latitude) * (Real.pi / 180)
  let theta := (longitude + radiansToDegrees gmst) * (Real.pi / 180)
  let x := radius * Real.sin phi * Real.cos theta
  let y := radius * Real.cos phi
  let z := radius * Real.sin phi * Real.sin theta
  ⟨x, y, z⟩

/-! ## One frame of `Satellites` (lines 103-129) -/

/-- The functions of the library `satellite.js` that a frame calls. `propagate` stands for
`satellite.propagate(satrec, date).position`: `none` when the position is falsy. -/
structure SatelliteLib (Date Satrec Eci : Type) where
  twoline2satrec : String → String → Satrec
  propagate : Satrec → Date → Option Eci
  gstime : Date → ℝ
  eciToGeodetic : Eci → ℝ → Geodetic

/-- The callback of `tleData.forEach((sat, i) => ...)` on the instance slots:
`if (!positionEci) return;` leaves the slots as they are, otherwise
`setMatrixAt(i, ...)` overwrites slot `i`. -/
noncomputable def satelliteStep {Date Satrec Eci : Type} (lib : SatelliteLib Date Satrec Eci)
    (date : Date) (slots : List Vec3) (sat : ElementSet) (i : Nat) : List Vec3 :=
  let satrec := lib.twoline2satrec sat.line1 sat.line2
  let positionEci := lib.propagate satrec date
  let gmst := lib.gstime date
  match positionEci with
  | none => slots
  | some positionEci =>
    let positionGd := lib.eciToGeodetic positionEci gmst
    slots.set i (satellitePosition positionGd gmst)

/-- The loop `tleData.forEach` from index `i` on. -/
noncomputable def satellitesFrom {Date Satrec Eci : Type} (lib : SatelliteLib Date Satrec Eci)
    (date : Date) : List ElementSet → Nat → List Vec3 → List Vec3
  | [], _, slots => slots
  | sat :: rest, i, slots => satellitesFrom lib date rest (i + 1) (satelliteStep lib date slots sat i)

/-- One frame of `Satellites` with the mesh mounted: the instance slots after the frame. -/
noncomputable def satellitesFrame {Date Satrec Eci : Type} (lib : SatelliteLib Date Satrec Eci)
    (date : Date) (tleData : List ElementSet) (slots : List Vec3) : List Vec3 :=
  satellitesFrom lib date tleData 0 slots

/-! ## A concrete library, to run frames on -/

/-- A stand-in for `satellite.js` on which frames can be evaluated: the record of a
satellite is its second line, propagation fails for an empty second line and at every
date after 0, the sidereal angle is 0 and every position is on the equator at height 0. -/
def demoLib : SatelliteLib Nat String Unit where
  twoline2satrec := fun _ line2 => line2
  propagate := fun satrec date => if satrec = "" then none else if date = 0 then some () else none
  gstime := fun _ => 0
  eciToGeodetic := fun _ _ => ⟨0, 0, 0⟩

/-! ## Parser: proofs -/

theorem parseLoop_of_le (lines : List String) (i : Nat) (acc : List ElementSet)
    (h : lines.length ≤ i) : parseLoop lines i acc = acc := by
  rw [parseLoop]
  simp [Nat.not_lt.mpr h]

theorem parseLoop_tail (lines : List String) (m : Nat) (acc : List ElementSet)
    (h : lines.length / 3 ≤ m) : parseLoop lines (3 * m) acc = acc := by
  rw [parseLoop]
  split
  · have h2 : lines.length ≤ 3 * m + 2 := by omega
    have h3 : lines[3 * m + 2]? = none := List.getElem?_eq_none h2
    simp only [h3, truthy]
    exact parseLoop_of_le lines _ acc (by omega)
  · rfl

theorem parseLoop_step (lines : List String) (hne : ∀ l ∈ lines, l ≠ "") (m : Nat)
    (acc : List ElementSet) (h : m < lines.length / 3) :
    parseLoop lines (3 * m) acc = parseLoop lines (3 * (m + 1)) (acc ++ [groupAt lines m]) := by
  have h0 : 3 * m < lines.length := by omega
  have h1 : 3 * m + 1 < lines.length := by omega
  have h2 : 3 * m + 2 < lines.length := by omega
  have e0 : lines[3 * m]? = some lines[3 * m] := List.getElem?_eq_getElem h0
  have e1 : lines[3 * m + 1]? = some lines[3 * m + 1] := List.getElem?_eq_getElem h1
  have e2 : lines[3 * m + 2]? = some lines[3 * m + 2] := List.getElem?_eq_getElem h2
  have t2 : truthy (some lines[3 * m + 2]) = true := by
    have := hne _ (List.getElem_mem h2)
    simp [truthy, this]
  rw [parseLoop]
  simp only [h0, if_true, e0, e1, e2, t2, groupAt, List.getD_eq_getElem?_getD, Option.getD_some]
  rfl

theorem parseLoop_eq (lines : List String) (hne : ∀ l ∈ lines, l ≠ "") :
    ∀ (d m : Nat) (acc : List ElementSet), lines.length / 3 - m = d →
      parseLoop lines (3 * m) acc
        = acc ++ (List.range' m (lines.length / 3 - m)).map (groupAt lines) := by
  intro d
  induction d with
  | zero =>
    intro m acc hd
    rw [parseLoop_tail lines m acc (by omega), hd]
    simp
  | succ d ih =>
    intro m acc hd
    rw [parseLoop_step lines hne m acc (by omega), ih (m + 1) _ (by omega)]
    have : lines.length / 3 - m = (lines.length / 3 - (m + 1)) + 1 := by omega
    rw [this, List.range'_succ]
    simp

theorem parseTle_eq_map (data : String) (hne : ∀ l ∈ tleLines data, l ≠ "") :
    parseTle data
      = (List.range ((tleLines data).length / 3)).map (groupAt (tleLines data)) := by
  have := parseLoop_eq (tleLines data) hne _ 0 [] rfl
  simpa [parseTle, List.range_eq_range'] using this

theorem groupAt_eq (lines : List String) (k : Nat) (h0 : 3 * k < lines.length)
    (h1 : 3 * k + 1 < lines.length) (h2 : 3 * k + 2 < lines.length) :
    groupAt lines k
      = { name := trim (lines.get ⟨3 * k, h0⟩),
          line1 := trim (lines.get ⟨3 * k + 1, h1⟩),
          line2 := trim (lines.get ⟨3 * k + 2, h2⟩) } := by
  simp [groupAt, List.getD_eq_getElem?_getD, List.getElem?_eq_getElem, h0, h1, h2]

/-- C2: when every line of `data.trim().split('\n')` is non-empty, the parsing loop emits
exactly `floor(n / 3)` element sets for `n` lines, so a trailing group of one or two
lines emits nothing; five lines give exactly one element set. -/
theorem parseTle_length (data : String) (hne : ∀ l ∈ tleLines data, l ≠ "") :
    (parseTle data).length = (tleLines data).length / 3 ∧
    ((tleLines data).length % 3 = 1 ∨ (tleLines data).length % 3 = 2 →
      3 * (parseTle data).length < (tleLines data).length ∧
      (parseTle data).length = ((tleLines data).length - (tleLines data).length % 3) / 3) ∧
    ((tleLines data).length = 5 → (parseTle data).length = 1) := by
  have hlen : (parseTle data).length = (tleLines data).length / 3 := by
    rw [parseTle_eq_map data hne]; simp
  refine ⟨hlen, ?_, ?_⟩
  · intro h; rw [hlen]; omega
  · intro h; rw [hlen, h]

theorem parseTle_length_witness :
    (∀ l ∈ tleLines "STARLINK-1\n1 a\n2 b\nSTARLINK-2\n1 c\n", l ≠ "") ∧
    (tleLines "STARLINK-1\n1 a\n2 b\nSTARLINK-2\n1 c\n").length = 5 ∧
    (parseTle "STARLINK-1\n1 a\n2 b\nSTARLINK-2\n1 c\n").length = 1 :=
  ⟨by decide, by decide,
    (parseTle_length "STARLINK-1\n1 a\n2 b\nSTARLINK-2\n1 c\n" (by decide)).2.2 (by decide)⟩

/-- C3: when every line `l[0..n-1]` of `data.trim().split('\n')` is non-empty, the emitted
sequence is exactly the list, for `k = 0, ..., floor(n / 3) - 1` in increasing `k`, of the
records `{name: trim(l[3k]), line1: trim(l[3k+1]), line2: trim(l[3k+2])}`: source order
is kept and nothing is deduplicated. -/
theorem parseTle_order (data : String) (hne : ∀ l ∈ tleLines data, l ≠ "") :
    parseTle data
      = List.ofFn (fun k : Fin ((tleLines data).length / 3) =>
          ({ name := trim ((tleLines data).get ⟨3 * k.val, by have := k.isLt; omega⟩),
             line1 := trim ((tleLines data).get ⟨3 * k.val + 1, by have := k.isLt; omega⟩),
             line2 := trim ((tleLines data).get ⟨3 * k.val + 2, by have := k.isLt; omega⟩) }
            : ElementSet)) := by
  rw [parseTle_eq_map data hne]
  apply List.ext_get
  · simp
  · intro k h1 h2
    simp only [List.length_map, List.length_range] at h1
    simp only [List.get_eq_getElem, List.getElem_map, List.getElem_range, List.getElem_ofFn]
    exact groupAt_eq _ k (by omega) (by omega) (by omega)

theorem parseTle_order_witness :
    (∀ l ∈ tleLines " SAT\n1 a \n2 b\nSAT\n1 c\n2 d\nX\n", l ≠ "") ∧
    parseTle " SAT\n1 a \n2 b\nSAT\n1 c\n2 d\nX\n"
      = [⟨"SAT", "1 a", "2 b"⟩, ⟨"SAT", "1 c", "2 d"⟩] :=
  ⟨by decide, (parseTle_order " SAT\n1 a \n2 b\nSAT\n1 c\n2 d\nX\n" (by decide)).trans (by decide)⟩

/-! ## Clocks: proofs -/

/-- C1 as stated fails: with start time `t0 = 1700000000000`, wall time one second later
and the scale moved from 1 to 2, `Sun`, `Moon` and `Satellites` compute instants one
second apart at the same wall time, and after one second of `Earth` clock the simulated
elapsed seconds jump from 1 to 2. -/
theorem clock_jump_counterexample :
    (1700000000000 : ℚ) ≤ 1700000001000 ∧ (1 : ℚ) ≤ 1 ∧ (1 : ℚ) ≤ 1000 ∧
    (1 : ℚ) ≤ 2 ∧ (2 : ℚ) ≤ 1000 ∧
    currentTime (1700000000000 : ℚ) 1700000001000 1 = 1700000001000 ∧
    currentTime (1700000000000 : ℚ) 1700000001000 2 = 1700000002000 ∧
    currentTime (1700000000000 : ℚ) 1700000001000 1
      ≠ currentTime (1700000000000 : ℚ) 1700000001000 2 ∧
    elapsedTime (1 : ℚ) 1 ≠ elapsedTime (1 : ℚ) 2 := by
  simp only [currentTime, elapsedTime]
  norm_num

/-- C1 amended: at one wall time `w`, the instants computed with scales `s1` and `s2`
differ by exactly `(w - t0) * (s2 - s1)`, so they agree only when `w = t0` or `s1 = s2`;
`Earth` elapsed time likewise differs by `elapsed * (s2 - s1)` and agrees only when
`elapsed = 0` or `s1 = s2`. -/
theorem clock_scale_change {K : Type} [Field K] (t0 w s1 s2 elapsed : K) :
    currentTime t0 w s2 - currentTime t0 w s1 = (w - t0) * (s2 - s1) ∧
    (currentTime t0 w s1 = currentTime t0 w s2 ↔ w = t0 ∨ s1 = s2) ∧
    elapsedTime elapsed s2 - elapsedTime elapsed s1 = elapsed * (s2 - s1) ∧
    (elapsedTime elapsed s1 = elapsedTime elapsed s2 ↔ elapsed = 0 ∨ s1 = s2) := by
  simp only [currentTime, elapsedTime]
  refine ⟨by ring, ?_, by ring, ?_⟩
  · rw [add_right_inj, mul_eq_mul_left_iff, sub_eq_zero, or_comm]
  · rw [mul_eq_mul_left_iff, or_comm]

/-- C9: with scale 1 the simulated instant of `Sun`, `Moon` and `Satellites` is the wall
time itself; with scale 1000, one second (1000 ms) of wall time is 1000000 ms of simulated
time; `Earth` elapsed seconds are `elapsed` at scale 1 and 1000 at scale 1000 after one
second. -/
theorem scale_factor_boundary {K : Type} [Field K] (t0 w elapsed : K) :
    currentTime t0 w 1 = w ∧
    currentTime t0 w 1 - t0 = w - t0 ∧
    currentTime t0 (t0 + 1000) 1000 - t0 = 1000000 ∧
    elapsedTime elapsed 1 = elapsed ∧
    elapsedTime (1 : K) 1000 = 1000 := by
  simp only [currentTime, elapsedTime]
  refine ⟨by ring, by ring, by ring, by ring, by ring⟩

/-- C8: the angle `Earth` sets is linear in the simulated elapsed seconds, is 0 at 0,
grows by exactly `2π` every 86400 seconds, and is not reduced modulo `2π`: after two days
it is `4π`. -/
theorem rotation_periodicity (t u a b : ℝ) :
    rotationAngle t = 2 * Real.pi * t / (24 * 60 * 60) ∧
    rotationAngle (a * t + b * u) = a * rotationAngle t + b * rotationAngle u ∧
    rotationAngle 0 = 0 ∧
    rotationAngle (t + 86400) - rotationAngle t = 2 * Real.pi ∧
    rotationAngle 86400 - rotationAngle 0 = 2 * Real.pi ∧
    rotationAngle (2 * 86400) = 4 * Real.pi ∧ 2 * Real.pi < rotationAngle (2 * 86400) ∧
    earthRotationY t u = rotationAngle (t * u) := by
  simp only [rotationAngle, earthRotationY, elapsedTime]
  refine ⟨trivial, by ring, by ring, by ring, by ring, by ring, ?_, trivial⟩
  have := Real.pi_pos
  linarith

/-! ## Ephemerides and transforms: proofs -/

theorem getJulianDate_j2000 : getJulianDate (946728000000 : ℝ) = 2451545.0 := by
  simp only [getJulianDate]
  norm_num

/-- The longitude of the Sun at `T = 0`, in radians. -/
theorem sun_longitude_j2000 :
    (getSunPosition 2451545.0).longitude
      = (280.46646 + (1.914602 * Real.sin (357.52911 * Real.pi / 180) +
          0.019993 * Real.sin (2 * 357.52911 * Real.pi / 180))) * Real.pi / 180 := by
  simp only [getSunPosition]
  norm_num

theorem sin_first_term :
    Real.sin (357.52911 * Real.pi / 180) = -Real.sin (2.47089 * Real.pi / 180) := by
  have h : (357.52911 : ℝ) * Real.pi / 180 = -(2.47089 * Real.pi / 180) + 2 * Real.pi := by
    ring
  rw [h, Real.sin_add_two_pi, Real.sin_neg]

theorem sin_second_term :
    Real.sin (2 * 357.52911 * Real.pi / 180) = -Real.sin (4.94178 * Real.pi / 180) := by
  have h : (2 : ℝ) * 357.52911 * Real.pi / 180
      = -(4.94178 * Real.pi / 180) + (2 : ℕ) * (2 * Real.pi) := by
    push_cast; ring
  rw [h, Real.sin_add_nat_mul_two_pi, Real.sin_neg]

theorem sin_small_bounds (c : ℝ) (h0 : 0 ≤ c) (h1 : c ≤ 180) :
    0 ≤ Real.sin (c * Real.pi / 180) ∧ Real.sin (c * Real.pi / 180) ≤ c * 3.15 / 180 := by
  have hpi := Real.pi_pos
  have hpi2 := Real.pi_lt_d2
  have hx0 : 0 ≤ c * Real.pi / 180 := by positivity
  have hx1 : c * Real.pi / 180 ≤ Real.pi := by nlinarith
  refine ⟨Real.sin_nonneg_of_nonneg_of_le_pi hx0 hx1, (Real.sin_le hx0).trans ?_⟩
  have : c * Real.pi ≤ c * 3.15 := mul_le_mul_of_nonneg_left hpi2.le h0
  linarith

/-- C7: at the instant J2000.0 (946728000000 ms) `getJulianDate` returns exactly
2451545.0, so `T = 0`, and the longitude `getSunPosition` returns, in degrees, equals
`280.46646 + 1.914602 sin(357.52911°) + 0.019993 sin(2 · 357.52911°)`, which is within
0.1 degree of 280.46. -/
theorem sun_longitude_at_j2000 :
    getJulianDate (946728000000 : ℝ) = 2451545.0 ∧
    (getJulianDate (946728000000 : ℝ) - 2451545.0) / 36525 = 0 ∧
    radiansToDegrees (getSunPosition (getJulianDate 946728000000)).longitude
      = 280.46646 + 1.914602 * Real.sin (357.52911 * Real.pi / 180) +
          0.019993 * Real.sin (2 * 357.52911 * Real.pi / 180) ∧
    |radiansToDegrees (getSunPosition (getJulianDate 946728000000)).longitude - 280.46|
      < 0.1 := by
  have hpi : Real.pi ≠ 0 := Real.pi_ne_zero
  have hdeg : radiansToDegrees (getSunPosition (getJulianDate 946728000000)).longitude
      = 280.46646 + 1.914602 * Real.sin (357.52911 * Real.pi / 180) +
          0.019993 * Real.sin (2 * 357.52911 * Real.pi / 180) := by
    rw [getJulianDate_j2000, sun_longitude_j2000, radiansToDegrees]
    field_simp
    ring
  refine ⟨getJulianDate_j2000, ?_, hdeg, ?_⟩
  · rw [getJulianDate_j2000]; norm_num
  · rw [hdeg, sin_first_term, sin_second_term]
    obtain ⟨a0, a1⟩ := sin_small_bounds 2.47089 (by norm_num) (by norm_num)
    obtain ⟨b0, b1⟩ := sin_small_bounds 4.94178 (by norm_num) (by norm_num)
    rw [abs_lt]
    constructor <;> norm_num at a1 b1 ⊢ <;> linarith

theorem sphere_norm (d lat lon : ℝ) :
    (d * Real.cos lat * Real.cos lon) ^ 2 + (d * Real.sin lat) ^ 2
      + (d * Real.cos lat * Real.sin lon) ^ 2 = d ^ 2 := by
  have h1 := Real.sin_sq_add_cos_sq lat
  have h2 := Real.sin_sq_add_cos_sq lon
  linear_combination (d ^ 2 * Real.cos lat ^ 2) * h2 + d ^ 2 * h1

/-- C10: for every Julian date the position `Sun` sets lies at distance 50 from the
origin, the position `Moon` sets lies at distance 10, and the directional light is put at
exactly the position of the Sun mesh. -/
theorem fixed_display_distance (jd : ℝ) :
    (sunFrame jd).sun.x ^ 2 + (sunFrame jd).sun.y ^ 2 + (sunFrame jd).sun.z ^ 2 = 50 ^ 2 ∧
    (moonFrame jd).x ^ 2 + (moonFrame jd).y ^ 2 + (moonFrame jd).z ^ 2 = 10 ^ 2 ∧
    (sunFrame jd).light = (sunFrame jd).sun ∧
    (sunFrame jd).sun
      = ⟨50 * Real.cos (getSunPosition jd).latitude * Real.cos (getSunPosition jd).longitude,
         50 * Real.sin (getSunPosition jd).latitude,
         50 * Real.cos (getSunPosition jd).latitude * Real.sin (getSunPosition jd).longitude⟩ ∧
    moonFrame jd
      = ⟨10 * Real.cos (getMoonPosition jd).latitude * Real.cos (getMoonPosition jd).longitude,
         10 * Real.sin (getMoonPosition jd).latitude,
         10 * Real.cos (getMoonPosition jd).latitude * Real.sin (getMoonPosition jd).longitude⟩ := by
  refine ⟨?_, ?_, rfl, rfl, rfl⟩
  · exact sphere_norm 50 _ _
  · exact sphere_norm 10 _ _

theorem satellitePosition_norm (gd : Geodetic) (gmst : ℝ) :
    (satellitePosition gd gmst).x ^ 2 + (satellitePosition gd gmst).y ^ 2
      + (satellitePosition gd gmst).z ^ 2 = (satelliteRadius gd.height) ^ 2 := by
  simp only [satellitePosition]
  generalize (90 - radiansToDegrees gd.latitude) * (Real.pi / 180) = phi
  generalize (radiansToDegrees gd.longitude + radiansToDegrees gmst) * (Real.pi / 180) = theta
  have h1 := Real.sin_sq_add_cos_sq phi
  have h2 := Real.sin_sq_add_cos_sq theta
  linear_combination
    ((satelliteRadius gd.height) ^ 2 * Real.sin phi ^ 2) * h2 + (satelliteRadius gd.height) ^ 2 * h1

/-- C4: the code places a satellite of geodetic height `h` at radius `5 + h / 6371`, not
at `5 + h * (5 / 6371)`: at `h = 550` km it uses `32405 / 6371` where the claimed ratio
gives `34605 / 6371`, and the two agree only at `h = 0`. -/
theorem satellite_radius_unscaled (gd : Geodetic) (gmst : ℝ) :
    (satellitePosition gd gmst).x ^ 2 + (satellitePosition gd gmst).y ^ 2
      + (satellitePosition gd gmst).z ^ 2 = (5 + gd.height / 6371) ^ 2 ∧
    satelliteRadius gd.height = 5 + gd.height / 6371 ∧
    (satelliteRadius gd.height = 5 + gd.height * (5 / 6371) ↔ gd.height = 0) ∧
    satelliteRadius (550 : ℚ) = 32405 / 6371 ∧
    (5 : ℚ) + 550 * (5 / 6371) = 34605 / 6371 ∧
    satelliteRadius (550 : ℚ) ≠ 5 + 550 * (5 / 6371) := by
  refine ⟨?_, rfl, ?_, ?_, ?_, ?_⟩
  · rw [satellitePosition_norm]; rfl
  · simp only [satelliteRadius]
    constructor
    · intro h
      have : gd.height / 6371 = gd.height * (5 / 6371) := by linarith
      field_simp at this
      linarith
    · intro h; rw [h]; norm_num
  · simp only [satelliteRadius]; norm_num
  · norm_num
  · simp only [satelliteRadius]; norm_num

/-! ## One frame of `Satellites`: proofs -/

theorem satelliteStep_none {Date Satrec Eci : Type} (lib : SatelliteLib Date Satrec Eci)
    (date : Date) (slots : List Vec3) (sat : ElementSet) (i : Nat)
    (h : lib.propagate (lib.twoline2satrec sat.line1 sat.line2) date = none) :
    satelliteStep lib date slots sat i = slots := by
  simp only [satelliteStep, h]

theorem satelliteStep_some {Date Satrec Eci : Type} (lib : SatelliteLib Date Satrec Eci)
    (date : Date) (slots : List Vec3) (sat : ElementSet) (i : Nat) (positionEci : Eci)
    (h : lib.propagate (lib.twoline2satrec sat.line1 sat.line2) date = some positionEci) :
    satelliteStep lib date slots sat i
      = slots.set i (satellitePosition (lib.eciToGeodetic positionEci (lib.gstime date))
          (lib.gstime date)) := by
  simp only [satelliteStep, h]

theorem satelliteStep_length {Date Satrec Eci : Type} (lib : SatelliteLib Date Satrec Eci)
    (date : Date) (slots : List Vec3) (sat : ElementSet) (i : Nat) :
    (satelliteStep lib date slots sat i).length = slots.length := by
  cases h : lib.propagate (lib.twoline2satrec sat.line1 sat.line2) date with
  | none => rw [satelliteStep_none lib date slots sat i h]
  | some e => rw [satelliteStep_some lib date slots sat i e h, List.length_set]

theorem satellitesFrom_length {Date Satrec Eci : Type} (lib : SatelliteLib Date Satrec Eci)
    (date : Date) (l : List ElementSet) :
    ∀ (s : Nat) (slots : List Vec3), (satellitesFrom lib date l s slots).length = slots.length := by
  induction l with
  | nil => intro s slots; rfl
  | cons sat rest ih =>
    intro s slots
    rw [satellitesFrom, ih, satelliteStep_length]

/-- A slot that no successful iteration points at is left as it was. -/
theorem satellitesFrom_untouched {Date Satrec Eci : Type} (lib : SatelliteLib Date Satrec Eci)
    (date : Date) (l : List ElementSet) :
    ∀ (s : Nat) (slots : List Vec3) (k : Nat),
      (∀ (m : Nat) (sat : ElementSet), l[m]? = some sat → s + m = k →
        lib.propagate (lib.twoline2satrec sat.line1 sat.line2) date = none) →
      (satellitesFrom lib date l s slots)[k]? = slots[k]? := by
  induction l with
  | nil => intro s slots k _; rfl
  | cons sat rest ih =>
    intro s slots k h
    rw [satellitesFrom, ih (s + 1) _ k (fun m sat2 hm hk => h (m + 1) sat2 (by simpa using hm) (by omega))]
    cases hp : lib.propagate (lib.twoline2satrec sat.line1 sat.line2) date with
    | none => rw [satelliteStep_none lib date slots sat s hp]
    | some e =>
      rw [satelliteStep_some lib date slots sat s e hp]
      have hne : s ≠ k := by
        intro hsk
        have := h 0 sat (by simp) (by omega)
        rw [this] at hp
        exact Option.noConfusion hp
      exact List.getElem?_set_ne hne

/-- The slot of a successful iteration holds the render position of that satellite. -/
theorem satellitesFrom_written {Date Satrec Eci : Type} (lib : SatelliteLib Date Satrec Eci)
    (date : Date) (l : List ElementSet) :
    ∀ (s : Nat) (slots : List Vec3) (j : Nat) (sat : ElementSet) (positionEci : Eci),
      l[j]? = some sat → s + j < slots.length →
      lib.propagate (lib.twoline2satrec sat.line1 sat.line2) date = some positionEci →
      (satellitesFrom lib date l s slots)[s + j]?
        = some (satellitePosition (lib.eciToGeodetic positionEci (lib.gstime date))
            (lib.gstime date)) := by
  induction l with
  | nil => intro s slots j sat e hj; simp at hj
  | cons sat0 rest ih =>
    intro s slots j sat e hj hlen hp
    rw [satellitesFrom]
    cases j with
    | zero =>
      have hsat : sat0 = sat := by simpa using hj
      subst hsat
      rw [satellitesFrom_untouched lib date rest (s + 1) _ (s + 0)
        (fun m _ _ hk => absurd hk (by omega)), satelliteStep_some lib date slots sat0 s e hp]
      exact List.getElem?_set_self (by omega)
    | succ j =>
      have := ih (s + 1) (satelliteStep lib date slots sat0 s) j sat e (by simpa using hj)
        (by rw [satelliteStep_length]; omega) hp
      rw [show s + (j + 1) = s + 1 + j by omega]
      exact this

/-- C5 amended: when the propagation of element set `i` yields no position, the frame
leaves instance slot `i` exactly as it was before the frame (the matrix it held, from an
earlier frame or from initialisation, stays in place). -/
theorem failed_slot_unchanged {Date Satrec Eci : Type} (lib : SatelliteLib Date Satrec Eci)
    (date : Date) (tleData : List ElementSet) (slots : List Vec3) (i : Nat)
    (hi : i < tleData.length)
    (hfail : lib.propagate (lib.twoline2satrec tleData[i].line1 tleData[i].line2) date = none) :
    (satellitesFrame lib date tleData slots)[i]? = slots[i]? := by
  apply satellitesFrom_untouched lib date tleData 0 slots i
  intro m sat hm hk
  have hmi : m = i := by omega
  subst hmi
  rw [List.getElem?_eq_getElem hi] at hm
  cases hm
  exact hfail

/-- C6: when the propagation of element set `i` yields no position, every other element
set `j` whose propagation yields a position has slot `j` set, in that frame, to the render
position computed from its own geodetic position and the sidereal angle of the frame; the
slot is the same in a frame run with any other propagation outcome for `i`. -/
theorem propagation_failure_isolation {Date Satrec Eci : Type} (lib : SatelliteLib Date Satrec Eci)
    (date : Date) (tleData : List ElementSet) (slots : List Vec3)
    (i j : Nat) (hi : i < tleData.length) (hj : j < tleData.length) (hij : j ≠ i)
    (hslots : slots.length = tleData.length)
    (hfail : lib.propagate (lib.twoline2satrec tleData[i].line1 tleData[i].line2) date = none)
    (positionEci : Eci)
    (hok : lib.propagate (lib.twoline2satrec tleData[j].line1 tleData[j].line2) date
      = some positionEci) :
    (satellitesFrame lib date tleData slots)[j]?
      = some (satellitePosition (lib.eciToGeodetic positionEci (lib.gstime date))
          (lib.gstime date)) ∧
    ∀ propagate2 : Satrec → Date → Option Eci,
      propagate2 (lib.twoline2satrec tleData[j].line1 tleData[j].line2) date = some positionEci →
      (satellitesFrame { lib with propagate := propagate2 } date tleData slots)[j]?
        = (satellitesFrame lib date tleData slots)[j]? := by
  have _hne : j ≠ i := hij
  have _hnone := hfail
  have key : ∀ lib2 : SatelliteLib Date Satrec Eci,
      lib2.propagate (lib2.twoline2satrec tleData[j].line1 tleData[j].line2) date
        = some positionEci →
      (satellitesFrame lib2 date tleData slots)[j]?
        = some (satellitePosition (lib2.eciToGeodetic positionEci (lib2.gstime date))
            (lib2.gstime date)) := by
    intro lib2 h2
    have := satellitesFrom_written lib2 date tleData 0 slots j tleData[j] positionEci
      (List.getElem?_eq_getElem hj) (by omega) h2
    simpa [satellitesFrame] using this
  refine ⟨key lib hok, fun propagate2 h2 => ?_⟩
  rw [key lib hok, key { lib with propagate := propagate2 } h2]

theorem satellitePosition_origin : satellitePosition ⟨0, 0, 0⟩ 0 = ⟨5, 0, 0⟩ := by
  have h : (90 : ℝ) * (Real.pi / 180) = Real.pi / 2 := by ring
  simp [satellitePosition, radiansToDegrees, satelliteRadius, h]

/-- C5 as stated fails: with one element set and slot 0 initially at the origin, the
frame at date 0 propagates it and writes `(5, 0, 0)` into slot 0; in the frame at date 1
its propagation yields no position, and after that frame slot 0 still holds `(5, 0, 0)`,
the position written by the earlier frame. -/
theorem stale_slot_counterexample :
    demoLib.propagate (demoLib.twoline2satrec "1 a" "2 b") 0 = some () ∧
    (satellitesFrame demoLib 0 [⟨"S", "1 a", "2 b"⟩] [⟨0, 0, 0⟩])[0]? = some ⟨5, 0, 0⟩ ∧
    demoLib.propagate (demoLib.twoline2satrec "1 a" "2 b") 1 = none ∧
    (satellitesFrame demoLib 1 [⟨"S", "1 a", "2 b"⟩]
        (satellitesFrame demoLib 0 [⟨"S", "1 a", "2 b"⟩] [⟨0, 0, 0⟩]))[0]?
      = some ⟨5, 0, 0⟩ := by
  have h0 : demoLib.propagate (demoLib.twoline2satrec "1 a" "2 b") 0 = some () := by decide
  have h1 : demoLib.propagate (demoLib.twoline2satrec "1 a" "2 b") 1 = none := by decide
  have f0 : satellitesFrame demoLib 0 [⟨"S", "1 a", "2 b"⟩] [⟨0, 0, 0⟩] = [⟨5, 0, 0⟩] := by
    simp only [satellitesFrame, satellitesFrom]
    rw [satelliteStep_some demoLib 0 _ _ 0 () h0]
    simp [demoLib, satellitePosition_origin]
  have f1 : satellitesFrame demoLib 1 [⟨"S", "1 a", "2 b"⟩] [⟨5, 0, 0⟩] = [⟨5, 0, 0⟩] := by
    simp only [satellitesFrame, satellitesFrom]
    rw [satelliteStep_none demoLib 1 _ _ 0 h1]
  refine ⟨h0, ?_, h1, ?_⟩
  · rw [f0]; rfl
  · rw [f0, f1]; rfl

theorem failed_slot_unchanged_witness :
    demoLib.propagate (demoLib.twoline2satrec "1 a" "") 0 = none ∧
    (satellitesFrame demoLib 0 [⟨"S", "1 a", ""⟩, ⟨"T", "1 c", "2 d"⟩]
        [⟨1, 2, 3⟩, ⟨4, 5, 6⟩])[0]?
      = some ⟨1, 2, 3⟩ :=
  ⟨by decide,
    failed_slot_unchanged demoLib 0 [⟨"S", "1 a", ""⟩, ⟨"T", "1 c", "2 d"⟩]
      [⟨1, 2, 3⟩, ⟨4, 5, 6⟩] 0 (by decide) (by decide)⟩

theorem propagation_failure_isolation_witness :
    demoLib.propagate (demoLib.twoline2satrec "1 a" "") 0 = none ∧
    demoLib.propagate (demoLib.twoline2satrec "1 c" "2 d") 0 = some () ∧
    (satellitesFrame demoLib 0 [⟨"S", "1 a", ""⟩, ⟨"T", "1 c", "2 d"⟩]
        [⟨1, 2, 3⟩, ⟨4, 5, 6⟩])[1]?
      = some (satellitePosition ⟨0, 0, 0⟩ 0) :=
  ⟨by decide, by decide,
    (propagation_failure_isolation demoLib 0 [⟨"S", "1 a", ""⟩, ⟨"T", "1 c", "2 d"⟩]
      [⟨1, 2, 3⟩, ⟨4, 5, 6⟩] 0 1 (by decide) (by decide) (by decide) rfl (by decide) ()
      (by decide)).1⟩

end Starlink
